import Mathlib

/-!
Verification of the document-extraction backend (src/src/index.ts).

The program is an Express application: a dispatch lookup `getAgentInstructions`
from (document type, page number) to an instruction prompt, zod output schemas
per (document type, page), three extraction route handlers (passport, aadhaar,
pan-card) that validate a multipart upload, call an external LLM agent and
persist the result in MongoDB, two query endpoints over the persisted records,
and a global error handler.

The embedding below models each route handler as a pure function.  External
collaborators (the agent runner, the document store's write, the `Number`
conversion of a route parameter) are passed in as explicit arguments holding
their outcome, so the handler's own control flow — the part written in
src/src/index.ts — is embedded exactly.  The store is a list of records; the
store-assigned identifier and creation timestamp follow the spec's data model
for the external Document Store collaborator.
-/

/-- A JavaScript number as far as the handlers inspect one: `NaN` (what
`Number` returns on a non-numeric string) or a numeric value, modelled as a
rational (JS numbers in this program are compared only with `===`, `|| null`
truthiness and use as a stored field, all of which a rational models). -/
inductive JsNumber where
  | nan : JsNumber
  | num (val : ℚ) : JsNumber
deriving DecidableEq

/-- `Number(req.params.pageNumber) || null` (index.ts:173, index.ts:242):
`NaN` and `0` are falsy, so both become `null`. -/
def jsNumberOrNull : JsNumber → Option ℚ
  | .nan => none
  | .num q => if q = 0 then none else some q

/-- A value thrown by a failing agent call or store write: either a JS `Error`
carrying a message, or a non-`Error` value. -/
inductive JsThrown where
  | jsError (message : String) : JsThrown
  | nonError : JsThrown
deriving DecidableEq

/-- `error instanceof Error ? error.message : "Unknown error"`
(index.ts:232, index.ts:302, index.ts:358). -/
def thrownDetails : JsThrown → String
  | .jsError m => m
  | .nonError => "Unknown error"

/-- The multipart upload (`req.file` from multer).  The raw byte buffer is
consumed only through `buffer.toString("base64")`, so it is represented
directly by its base64 rendering. -/
structure UploadedImage where
  base64Data : String
  mimetype : String
deriving DecidableEq

/-- index.ts:76-90. -/
def passportFrontPageInstructions : String :=
  "You are an expert at extracting information from passport images. Analyze the provided passport's front page image and extract all available information
       Extrect following information from the passport's front page image:
       - Passport Number
       - First Name
       - Last Name
       - Date of Birth
       - Passport Issued Date
       - Passport Expiry Date
       - Passport Issued Country
       - Passport Issued State
       - Gender
       - Nationality
       - Phone Number
       - Place of Birth
       "

/-- index.ts:92-97. -/
def passportBackPageInstructions : String :=
  "You are an expert at extracting information from passport's back page images. Analyze the provided passport's back page image and extract all available information
       Extrect following information from the passport's back page image:
       - Father's Name
       - Mother's Name
       - Address
       "

/-- index.ts:99-103. -/
def aadhaarFirstPageInstructions : String :=
  "You are an expert at extracting information from aadhaar images. Analyze the provided aadhaar's first page image and extract all available information
       Extrect following information from the aadhaar's first page image:
       - Aadhaar Number
       - Name as per Aadhaar Card
       "

/-- index.ts:105-108. -/
def aadhaarSecondPageInstructions : String :=
  "You are an expert at extracting information from aadhaar's second page images. Analyze the provided aadhaar's second page image and extract all available information
       Extrect following information from the aadhaar's second page image:
       - Address
       "

/-- index.ts:110-114. -/
def panCardInstructions : String :=
  "You are an expert at extracting information from pan card image. Analyze the provided pan card image and extract all available information
       Extrect following information from the pan card image:
       - PAN Number
       - Name as per PAN Card
       "

/-- The dispatch lookup (index.ts:117-132): two-level branch on document type
then page number; every miss returns `undefined` (here `none`). -/
def getAgentInstructions (type : String) (pageNumber : ℚ) : Option String :=
  if type = "passport" then
    if pageNumber = 1 then some passportFrontPageInstructions
    else if pageNumber = 2 then some passportBackPageInstructions
    else none
  else if type = "aadhaar" then
    if pageNumber = 1 then some aadhaarFirstPageInstructions
    else if pageNumber = 2 then some aadhaarSecondPageInstructions
    else none
  else none

/-- One field of a zod output schema: `z.<zodType>().describe(description)`,
`optional := false` since no field carries `.optional()`. -/
structure ZodField where
  name : String
  zodType : String
  description : String
  optional : Bool
deriving DecidableEq

/-- `z.string().describe d` under field name `n`: a required string field. -/
def zstr (n d : String) : ZodField :=
  { name := n, zodType := "string", description := d, optional := false }

/-- index.ts:134-147. -/
def passportFirstPageOutput : List ZodField :=
  [zstr "passportNumber" "passport number",
   zstr "firstName" "first name",
   zstr "lastName" "last name",
   zstr "dateOfBirth" "date of birth",
   zstr "passportIssuedDate" "passport issued date",
   zstr "passportExpiryDate" "passport expiry date",
   zstr "passportIssuedCountry" "passport issued country",
   zstr "passportIssuedState" "passport issued state",
   zstr "gender" "gender",
   zstr "nationality" "nationality",
   zstr "phoneNumber" "phone number",
   zstr "placeOfBirth" "place of birth"]

/-- index.ts:149-153. -/
def passportSecondPageOutput : List ZodField :=
  [zstr "fatherName" "father's name",
   zstr "motherName" "mother's name",
   zstr "address" "address"]

/-- index.ts:155-158. -/
def aadhaarFirstPageOutput : List ZodField :=
  [zstr "aadhaarNumber" "aadhaar number",
   zstr "name" "name as per Aadhaar Card"]

/-- index.ts:160-162. -/
def aadhaarSecondPageOutput : List ZodField :=
  [zstr "address" "address"]

/-- index.ts:164-167. -/
def panCardOutput : List ZodField :=
  [zstr "panNumber" "PAN number",
   zstr "name" "name as per PAN Card"]

/-- A persisted `ExtractedData` document (model/ExtractedData.ts): document
type, page number, the agent's structured output (opaque here), the data-URL
image, and the mongoose `timestamps` creation time.  `id` is the
store-assigned `_id`. -/
structure ExtractionRecord where
  id : ℕ
  documentType : String
  pageNumber : ℚ
  extractedData : String
  imageUrl : String
  createdAt : ℕ
deriving DecidableEq

/-- The response body of a POST extraction route, together with its HTTP
status (`res.json` with no status call is 200). -/
structure ExtractResponse where
  status : ℕ
  error : Option String := none
  message : Option String := none
  data : Option String := none
  mongoId : Option ℕ := none
  details : Option String := none
deriving DecidableEq

/-- What one extraction request leaves behind: the HTTP response, the store
after the request, and whether `run(agent, ...)` was reached. -/
structure HandlerOutcome where
  response : ExtractResponse
  store : List ExtractionRecord
  agentCalled : Bool
deriving DecidableEq

/-- Modelled from the spec for the external Document Store collaborator:
`new ExtractedData({...})` + `await extractedData.save()` insert one record
and assign it a fresh unique identifier ("Identity: a store-assigned unique
identifier"), modelled as the next index. -/
def insertRecord (store : List ExtractionRecord) (documentType : String)
    (pageNumber : ℚ) (extractedData : String) (imageUrl : String)
    (now : ℕ) : ExtractionRecord × List ExtractionRecord :=
  let r : ExtractionRecord :=
    { id := store.length, documentType := documentType,
      pageNumber := pageNumber, extractedData := extractedData,
      imageUrl := imageUrl, createdAt := now }
  (r, store ++ [r])

/-- POST /api/extract/passport/:pageNumber (index.ts:169-236).  `nodeEnv` is
`process.env.NODE_ENV`, in scope for the handler but never consulted by it;
`pageParam` is `Number(req.params.pageNumber)`; `agentResult` and `saveResult`
are the outcomes of the external agent call and store write, reached only
where the code reaches them. -/
def passportExtractHandler (nodeEnv : String) (image : Option UploadedImage)
    (pageParam : JsNumber) (agentResult : Except JsThrown String)
    (saveResult : Except JsThrown Unit) (now : ℕ)
    (store : List ExtractionRecord) : HandlerOutcome :=
  match image with
  | none =>
    ⟨{ status := 400, error := some "No image file provided." }, store, false⟩
  | some img =>
    match jsNumberOrNull pageParam with
    | none =>
      ⟨{ status := 400, error := some "Page number is required." }, store, false⟩
    | some pageNumber =>
      let dataUrl := "data:" ++ img.mimetype ++ ";base64," ++ img.base64Data
      match getAgentInstructions "passport" pageNumber with
      | none =>
        ⟨{ status := 400, error := some "Invalid page number for passport." },
         store, false⟩
      | some _ =>
        match agentResult with
        | .error e =>
          ⟨{ status := 500, error := some "Failed to process image",
             details := some (thrownDetails e) }, store, true⟩
        | .ok finalOutput =>
          match saveResult with
          | .error e =>
            ⟨{ status := 500, error := some "Failed to process image",
               details := some (thrownDetails e) }, store, true⟩
          | .ok _ =>
            let inserted :=
              insertRecord store "passport" pageNumber finalOutput dataUrl now
            ⟨{ status := 200,
               message := some "Image extracted and stored successfully",
               data := some finalOutput, mongoId := some inserted.1.id },
             inserted.2, true⟩

/-- POST /api/extract/aadhaar/:pageNumber (index.ts:238-306): identical shape,
aadhaar strings. -/
def aadhaarExtractHandler (nodeEnv : String) (image : Option UploadedImage)
    (pageParam : JsNumber) (agentResult : Except JsThrown String)
    (saveResult : Except JsThrown Unit) (now : ℕ)
    (store : List ExtractionRecord) : HandlerOutcome :=
  match image with
  | none =>
    ⟨{ status := 400, error := some "No image file provided." }, store, false⟩
  | some img =>
    match jsNumberOrNull pageParam with
    | none =>
      ⟨{ status := 400, error := some "Page number is required." }, store, false⟩
    | some pageNumber =>
      let dataUrl := "data:" ++ img.mimetype ++ ";base64," ++ img.base64Data
      match getAgentInstructions "aadhaar" pageNumber with
      | none =>
        ⟨{ status := 400, error := some "Invalid page number for aadhaar." },
         store, false⟩
      | some _ =>
        match agentResult with
        | .error e =>
          ⟨{ status := 500, error := some "Failed to process image",
             details := some (thrownDetails e) }, store, true⟩
        | .ok finalOutput =>
          match saveResult with
          | .error e =>
            ⟨{ status := 500, error := some "Failed to process image",
               details := some (thrownDetails e) }, store, true⟩
          | .ok _ =>
            let inserted :=
              insertRecord store "aadhaar" pageNumber finalOutput dataUrl now
            ⟨{ status := 200,
               message := some "Image extracted and stored successfully",
               data := some finalOutput, mongoId := some inserted.1.id },
             inserted.2, true⟩

/-- POST /api/extract/pan-card (index.ts:308-361): no page parameter; persists
with documentType "pan-card" and pageNumber 1. -/
def panCardExtractHandler (nodeEnv : String) (image : Option UploadedImage)
    (agentResult : Except JsThrown String) (saveResult : Except JsThrown Unit)
    (now : ℕ) (store : List ExtractionRecord) : HandlerOutcome :=
  match image with
  | none =>
    ⟨{ status := 400, error := some "No image file provided." }, store, false⟩
  | some img =>
    let dataUrl := "data:" ++ img.mimetype ++ ";base64," ++ img.base64Data
    match agentResult with
    | .error e =>
      ⟨{ status := 500, error := some "Failed to process image",
         details := some (thrownDetails e) }, store, true⟩
    | .ok finalOutput =>
      match saveResult with
      | .error e =>
        ⟨{ status := 500, error := some "Failed to process image",
           details := some (thrownDetails e) }, store, true⟩
      | .ok _ =>
        let inserted :=
          insertRecord store "pan-card" 1 finalOutput dataUrl now
        ⟨{ status := 200,
           message := some "Image extracted and stored successfully",
           data := some finalOutput, mongoId := some inserted.1.id },
         inserted.2, true⟩

/-- Modelled from the spec for the Document Store collaborator:
`ExtractedData.findById(id)` is an exact-identifier lookup returning the
record or nothing. -/
def findByIdModel (store : List ExtractionRecord) (id : ℕ) :
    Option ExtractionRecord :=
  store.find? (fun r => r.id == id)

/-- The response body of GET /api/extracted-data/:id with its status. -/
structure GetResponse where
  status : ℕ
  error : Option String := none
  message : Option String := none
  data : Option ExtractionRecord := none
deriving DecidableEq

/-- GET /api/extracted-data/:id (index.ts:389-408): a lookup miss is 404
"Data not found"; a hit is 200 with the record. -/
def getExtractionHandler (store : List ExtractionRecord) (id : ℕ) :
    GetResponse :=
  match findByIdModel store id with
  | none => { status := 404, error := some "Data not found" }
  | some d =>
    { status := 200, message := some "Data retrieved successfully",
      data := some d }

/-- The mongo query built at index.ts:368-370: a record matches when every
present query field equals the record's field.  The page filter holds
`Number(pageNumber)`; a NaN value matches no stored record. -/
def matchesQuery (documentType : Option String) (pageNumber : Option JsNumber)
    (r : ExtractionRecord) : Bool :=
  (match documentType with
   | none => true
   | some t => r.documentType == t) &&
  (match pageNumber with
   | none => true
   | some .nan => false
   | some (.num q) => r.pageNumber == q)

/-- `.sort(\x7b createdAt: -1 \x7d)`: record `a` may precede `b` when `a` is at
least as new. -/
def newestFirst (a b : ExtractionRecord) : Prop :=
  b.createdAt ≤ a.createdAt

instance : DecidableRel newestFirst :=
  fun a b => inferInstanceAs (Decidable (b.createdAt ≤ a.createdAt))

instance : IsTotal ExtractionRecord newestFirst :=
  ⟨fun a b => Nat.le_total b.createdAt a.createdAt⟩

instance : IsTrans ExtractionRecord newestFirst :=
  ⟨fun _ _ _ hab hbc => Nat.le_trans hbc hab⟩

/-- The response body of GET /api/extracted-data with its status. -/
structure ListResponse where
  status : ℕ
  message : Option String := none
  count : ℕ := 0
  data : List ExtractionRecord := []
deriving DecidableEq

/-- GET /api/extracted-data (index.ts:364-386): optional documentType and
pageNumber query filters (`none` = absent or falsy), conjunctive match,
creation time descending.  The store's filtered ordered scan is modelled as
filter followed by a sort under `newestFirst`. -/
def listExtractionsHandler (store : List ExtractionRecord)
    (documentType : Option String) (pageNumber : Option JsNumber) :
    ListResponse :=
  let data :=
    List.insertionSort newestFirst
      (store.filter (matchesQuery documentType pageNumber))
  { status := 200, message := some "Data retrieved successfully",
    count := data.length, data := data }

/-- The global error handler (index.ts:419-429): 500, and the underlying
message only in development mode. -/
def globalErrorHandler (nodeEnv : String) (errMessage : String) :
    ExtractResponse :=
  { status := 500, error := some "Internal Server Error",
    message := some (if nodeEnv = "development" then errMessage
                     else "Something went wrong!") }

/-- A store whose identifiers were all assigned as fresh indices: every stored
identifier is below the store's length. -/
def WellFormedStore (store : List ExtractionRecord) : Prop :=
  ∀ r ∈ store, r.id < store.length

/-- C1: every supported (documentType, pageNumber) pair — passport with page 1
or 2, aadhaar with page 1 or 2 — yields a non-empty instruction string from
`getAgentInstructions`; every other pair yields `none` (the `undefined`
UnsupportedCombination result). -/
theorem claim1_dispatch_total (type : String) (pageNumber : ℚ) :
    ((∃ s, getAgentInstructions type pageNumber = some s ∧ s ≠ "") ↔
      ((type = "passport" ∨ type = "aadhaar") ∧
        (pageNumber = 1 ∨ pageNumber = 2))) ∧
    (¬((type = "passport" ∨ type = "aadhaar") ∧
        (pageNumber = 1 ∨ pageNumber = 2)) →
      getAgentInstructions type pageNumber = none) := by
  unfold getAgentInstructions
  split_ifs with h1 h2 h3 h4 h5 h6 <;>
    constructor <;>
    simp_all <;>
    decide

/-- Witness for C1 at the unsupported pair (passport, 3). -/
theorem claim1_witness : getAgentInstructions "passport" 3 = none :=
  (claim1_dispatch_total "passport" 3).2 (by norm_num)

/-- C7: the five output schemas carry exactly the stated field sets, all of
string type and all required. -/
theorem claim7_schema_fields :
    passportFirstPageOutput.map ZodField.name =
      ["passportNumber", "firstName", "lastName", "dateOfBirth",
       "passportIssuedDate", "passportExpiryDate", "passportIssuedCountry",
       "passportIssuedState", "gender", "nationality", "phoneNumber",
       "placeOfBirth"] ∧
    passportSecondPageOutput.map ZodField.name =
      ["fatherName", "motherName", "address"] ∧
    aadhaarFirstPageOutput.map ZodField.name = ["aadhaarNumber", "name"] ∧
    aadhaarSecondPageOutput.map ZodField.name = ["address"] ∧
    panCardOutput.map ZodField.name = ["panNumber", "name"] ∧
    passportFirstPageOutput.length = 12 ∧
    passportSecondPageOutput.length = 3 ∧
    aadhaarFirstPageOutput.length = 2 ∧
    aadhaarSecondPageOutput.length = 1 ∧
    panCardOutput.length = 2 ∧
    ∀ f ∈ passportFirstPageOutput ++ passportSecondPageOutput ++
        aadhaarFirstPageOutput ++ aadhaarSecondPageOutput ++ panCardOutput,
      f.zodType = "string" ∧ f.optional = false := by
  decide

/-- C9: with no image file attached, each extraction endpoint answers 400
"No image file provided." and changes nothing, whatever the remaining inputs
(in particular also when the page number is missing or invalid: the image
check comes first). -/
theorem claim9_missing_image_first (nodeEnv : String) (pageParam : JsNumber)
    (agentResult : Except JsThrown String) (saveResult : Except JsThrown Unit)
    (now : ℕ) (store : List ExtractionRecord) :
    passportExtractHandler nodeEnv none pageParam agentResult saveResult
        now store =
      ⟨{ status := 400, error := some "No image file provided." },
        store, false⟩ ∧
    aadhaarExtractHandler nodeEnv none pageParam agentResult saveResult
        now store =
      ⟨{ status := 400, error := some "No image file provided." },
        store, false⟩ ∧
    panCardExtractHandler nodeEnv none agentResult saveResult now store =
      ⟨{ status := 400, error := some "No image file provided." },
        store, false⟩ :=
  ⟨rfl, rfl, rfl⟩

/-- C4: a page parameter whose numeric conversion is 0 or NaN yields the
missing-page client error, while a recognized numeric but unsupported page
such as 3 yields the out-of-range client error; both are 400 and the
messages differ. -/
theorem claim4_page_error_messages (nodeEnv : String) (img : UploadedImage)
    (agentResult : Except JsThrown String) (saveResult : Except JsThrown Unit)
    (now : ℕ) (store : List ExtractionRecord) :
    (passportExtractHandler nodeEnv (some img) (JsNumber.num 0) agentResult
        saveResult now store).response =
      { status := 400, error := some "Page number is required." } ∧
    (passportExtractHandler nodeEnv (some img) JsNumber.nan agentResult
        saveResult now store).response =
      { status := 400, error := some "Page number is required." } ∧
    (passportExtractHandler nodeEnv (some img) (JsNumber.num 3) agentResult
        saveResult now store).response =
      { status := 400, error := some "Invalid page number for passport." } ∧
    (aadhaarExtractHandler nodeEnv (some img) (JsNumber.num 0) agentResult
        saveResult now store).response =
      { status := 400, error := some "Page number is required." } ∧
    (aadhaarExtractHandler nodeEnv (some img) JsNumber.nan agentResult
        saveResult now store).response =
      { status := 400, error := some "Page number is required." } ∧
    (aadhaarExtractHandler nodeEnv (some img) (JsNumber.num 3) agentResult
        saveResult now store).response =
      { status := 400, error := some "Invalid page number for aadhaar." } ∧
    ("Page number is required." ≠ "Invalid page number for passport.") ∧
    ("Page number is required." ≠ "Invalid page number for aadhaar.") := by
  refine ⟨?_, rfl, ?_, ?_, rfl, ?_, by decide, by decide⟩ <;>
    simp [passportExtractHandler, aadhaarExtractHandler, jsNumberOrNull,
      getAgentInstructions]

/-- C10: any numeric page parameter other than 0, 1 and 2 — negative and
non-integer values included — produces the out-of-range error on the passport
and aadhaar endpoints, the agent is not invoked and no record is created. -/
theorem claim10_unsupported_page_no_effect (nodeEnv : String)
    (img : UploadedImage) (q : ℚ) (agentResult : Except JsThrown String)
    (saveResult : Except JsThrown Unit) (now : ℕ)
    (store : List ExtractionRecord)
    (h0 : q ≠ 0) (h1 : q ≠ 1) (h2 : q ≠ 2) :
    passportExtractHandler nodeEnv (some img) (JsNumber.num q) agentResult
        saveResult now store =
      ⟨{ status := 400, error := some "Invalid page number for passport." },
        store, false⟩ ∧
    aadhaarExtractHandler nodeEnv (some img) (JsNumber.num q) agentResult
        saveResult now store =
      ⟨{ status := 400, error := some "Invalid page number for aadhaar." },
        store, false⟩ := by
  constructor <;>
    simp [passportExtractHandler, aadhaarExtractHandler, jsNumberOrNull,
      getAgentInstructions, h0, h1, h2]

/-- Witness for C10 at the non-integer page value 3/2 (the conversion of a
parameter such as "1.5"). -/
theorem claim10_witness :
    passportExtractHandler "development"
        (some { base64Data := "b", mimetype := "image/png" })
        (JsNumber.num (3 / 2)) (Except.ok "o") (Except.ok ()) 0 [] =
      ⟨{ status := 400, error := some "Invalid page number for passport." },
        [], false⟩ ∧
    aadhaarExtractHandler "development"
        (some { base64Data := "b", mimetype := "image/png" })
        (JsNumber.num (3 / 2)) (Except.ok "o") (Except.ok ()) 0 [] =
      ⟨{ status := 400, error := some "Invalid page number for aadhaar." },
        [], false⟩ :=
  claim10_unsupported_page_no_effect "development"
    { base64Data := "b", mimetype := "image/png" } (3 / 2) (Except.ok "o")
    (Except.ok ()) 0 [] (by norm_num) (by norm_num) (by norm_num)

/-- C2: an extraction request either leaves the store exactly as it was, or —
only when the agent call returned successfully and the save succeeded, with a
200 response — appends exactly one record; so no failure at any stage writes a
record, and no partial record exists. -/
theorem claim2_atomic_persistence (nodeEnv : String)
    (image : Option UploadedImage) (pageParam : JsNumber)
    (agentResult : Except JsThrown String) (saveResult : Except JsThrown Unit)
    (now : ℕ) (store : List ExtractionRecord) :
    ((passportExtractHandler nodeEnv image pageParam agentResult saveResult
        now store).store = store ∨
      ((∃ out, agentResult = Except.ok out) ∧ saveResult = Except.ok () ∧
        (passportExtractHandler nodeEnv image pageParam agentResult saveResult
          now store).response.status = 200 ∧
        ∃ r, (passportExtractHandler nodeEnv image pageParam agentResult
          saveResult now store).store = store ++ [r])) ∧
    ((aadhaarExtractHandler nodeEnv image pageParam agentResult saveResult
        now store).store = store ∨
      ((∃ out, agentResult = Except.ok out) ∧ saveResult = Except.ok () ∧
        (aadhaarExtractHandler nodeEnv image pageParam agentResult saveResult
          now store).response.status = 200 ∧
        ∃ r, (aadhaarExtractHandler nodeEnv image pageParam agentResult
          saveResult now store).store = store ++ [r])) ∧
    ((panCardExtractHandler nodeEnv image agentResult saveResult
        now store).store = store ∨
      ((∃ out, agentResult = Except.ok out) ∧ saveResult = Except.ok () ∧
        (panCardExtractHandler nodeEnv image agentResult saveResult
          now store).response.status = 200 ∧
        ∃ r, (panCardExtractHandler nodeEnv image agentResult
          saveResult now store).store = store ++ [r])) := by
  refine ⟨?_, ?_, ?_⟩ <;>
  · cases image with
    | none => exact Or.inl rfl
    | some img =>
      cases hpn : jsNumberOrNull pageParam with
      | none =>
        simp [passportExtractHandler, aadhaarExtractHandler,
          panCardExtractHandler, hpn] <;>
        cases agentResult with
        | error e => simp
        | ok o =>
          cases saveResult with
          | error e => simp
          | ok u => simp [insertRecord]
      | some q =>
        cases hins : getAgentInstructions "passport" q with
        | none =>
          cases hins2 : getAgentInstructions "aadhaar" q with
          | none =>
            simp [passportExtractHandler, aadhaarExtractHandler,
              panCardExtractHandler, hpn, hins, hins2] <;>
            cases agentResult with
            | error e => simp
            | ok o =>
              cases saveResult with
              | error e => simp
              | ok u => simp [insertRecord]
          | some ins2 =>
            simp [passportExtractHandler, aadhaarExtractHandler,
              panCardExtractHandler, hpn, hins, hins2] <;>
            cases agentResult with
            | error e => simp
            | ok o =>
              cases saveResult with
              | error e => simp
              | ok u => simp [insertRecord]
        | some ins =>
          cases hins2 : getAgentInstructions "aadhaar" q with
          | none =>
            simp [passportExtractHandler, aadhaarExtractHandler,
              panCardExtractHandler, hpn, hins, hins2] <;>
            cases agentResult with
            | error e => simp
            | ok o =>
              cases saveResult with
              | error e => simp
              | ok u => simp [insertRecord]
          | some ins2 =>
            simp [passportExtractHandler, aadhaarExtractHandler,
              panCardExtractHandler, hpn, hins, hins2] <;>
            cases agentResult with
            | error e => simp
            | ok o =>
              cases saveResult with
              | error e => simp
              | ok u => simp [insertRecord]

/-- In a well-formed store every stored identifier misses a fresh identifier,
so the exact-identifier lookup over the store extended by a fresh record finds
that record. -/
theorem findByIdModel_append_fresh (store : List ExtractionRecord)
    (r : ExtractionRecord) (h : ∀ x ∈ store, x.id ≠ r.id) :
    findByIdModel (store ++ [r]) r.id = some r := by
  unfold findByIdModel
  rw [List.find?_append]
  have hnone : store.find? (fun x => x.id == r.id) = none := by
    rw [List.find?_eq_none]
    intro x hx
    simp [h x hx]
  simp [hnone]

/-- C3: a successful extraction call appends exactly one record, whose
documentType and pageNumber are those of the request; the returned store
identifier resolves through the get-by-id endpoint to that record; and a
second identical call appends a second record with a distinct identifier
(no idempotence). -/
theorem claim3_one_record_per_success (nodeEnv : String)
    (img : UploadedImage) (p : ℚ) (agentOutput : String) (now now2 : ℕ)
    (store : List ExtractionRecord) (hwf : WellFormedStore store)
    (hp : p = 1 ∨ p = 2) :
    ∃ r : ExtractionRecord,
      (passportExtractHandler nodeEnv (some img) (JsNumber.num p)
        (Except.ok agentOutput) (Except.ok ()) now store).store =
          store ++ [r] ∧
      r.documentType = "passport" ∧
      r.pageNumber = p ∧
      (passportExtractHandler nodeEnv (some img) (JsNumber.num p)
        (Except.ok agentOutput) (Except.ok ()) now store).response.mongoId =
          some r.id ∧
      getExtractionHandler
        ((passportExtractHandler nodeEnv (some img) (JsNumber.num p)
          (Except.ok agentOutput) (Except.ok ()) now store).store) r.id =
        { status := 200, message := some "Data retrieved successfully",
          data := some r } ∧
      ∃ r2 : ExtractionRecord,
        (passportExtractHandler nodeEnv (some img) (JsNumber.num p)
          (Except.ok agentOutput) (Except.ok ()) now2
          (store ++ [r])).store = (store ++ [r]) ++ [r2] ∧
        r2.id ≠ r.id := by
  have hp0 : p ≠ 0 := by rcases hp with h | h <;> rw [h] <;> norm_num
  have hins : (getAgentInstructions "passport" p).isSome := by
    rcases hp with h | h <;> simp [getAgentInstructions, h]
  obtain ⟨ins, hins⟩ := Option.isSome_iff_exists.mp hins
  refine ⟨{ id := store.length, documentType := "passport", pageNumber := p,
            extractedData := agentOutput,
            imageUrl := "data:" ++ img.mimetype ++ ";base64," ++
              img.base64Data,
            createdAt := now }, ?_, rfl, rfl, ?_, ?_, ?_⟩
  · simp [passportExtractHandler, jsNumberOrNull, hp0, hins, insertRecord]
  · simp [passportExtractHandler, jsNumberOrNull, hp0, hins, insertRecord]
  · have hstore : (passportExtractHandler nodeEnv (some img) (JsNumber.num p)
        (Except.ok agentOutput) (Except.ok ()) now store).store =
        store ++ [⟨store.length, "passport", p, agentOutput,
          "data:" ++ img.mimetype ++ ";base64," ++ img.base64Data, now⟩] := by
      simp [passportExtractHandler, jsNumberOrNull, hp0, hins, insertRecord]
    rw [hstore]
    have hfind := findByIdModel_append_fresh store
      ⟨store.length, "passport", p, agentOutput,
        "data:" ++ img.mimetype ++ ";base64," ++ img.base64Data, now⟩
      (fun x hx => Nat.ne_of_lt (hwf x hx))
    simp [getExtractionHandler, hfind]
  · refine ⟨⟨store.length + 1, "passport", p, agentOutput,
        "data:" ++ img.mimetype ++ ";base64," ++ img.base64Data, now2⟩,
        ?_, ?_⟩
    · simp [passportExtractHandler, jsNumberOrNull, hp0, hins, insertRecord]
    · simp

/-- Witness for C3 on the empty store at page 1. -/
theorem claim3_witness :
    ∃ r : ExtractionRecord,
      (passportExtractHandler "development"
        (some { base64Data := "b", mimetype := "image/png" })
        (JsNumber.num 1) (Except.ok "o") (Except.ok ()) 0 []).store =
          [] ++ [r] ∧
      r.documentType = "passport" ∧
      r.pageNumber = 1 ∧
      (passportExtractHandler "development"
        (some { base64Data := "b", mimetype := "image/png" })
        (JsNumber.num 1) (Except.ok "o") (Except.ok ()) 0 []).response.mongoId =
          some r.id ∧
      getExtractionHandler
        ((passportExtractHandler "development"
          (some { base64Data := "b", mimetype := "image/png" })
          (JsNumber.num 1) (Except.ok "o") (Except.ok ()) 0 []).store) r.id =
        { status := 200, message := some "Data retrieved successfully",
          data := some r } ∧
      ∃ r2 : ExtractionRecord,
        (passportExtractHandler "development"
          (some { base64Data := "b", mimetype := "image/png" })
          (JsNumber.num 1) (Except.ok "o") (Except.ok ()) 1
          ([] ++ [r])).store = ([] ++ [r]) ++ [r2] ∧
        r2.id ≠ r.id :=
  claim3_one_record_per_success "development"
    { base64Data := "b", mimetype := "image/png" } 1 "o" 0 1 []
    (fun r hr => absurd hr (List.not_mem_nil r)) (Or.inl rfl)

/-- Counterexample to C5: running in production mode ("production" is not a
non-production mode), the passport endpoint's failed agent call still answers
500 with the underlying error's message in the response's details — the
detail is not suppressed, contradicting the claim that the message is
included only in a non-production mode. -/
theorem claim5_counterexample :
    (passportExtractHandler "production"
        (some { base64Data := "b", mimetype := "image/png" })
        (JsNumber.num 1)
        (Except.error (JsThrown.jsError "agent call failed"))
        (Except.ok ()) 0 []).response =
      { status := 500, error := some "Failed to process image",
        details := some "agent call failed" } := by
  rfl

/-- C5 as amended: when the agent call or the persistence write fails, the
passport and aadhaar endpoints answer 500 with the underlying Error's message
in the details field in every environment mode, production included; the
environment gates only the global uncaught-error handler's message
(development shows it, anything else shows "Something went wrong!"). -/
theorem claim5_amended_unconditional_details (nodeEnv : String)
    (img : UploadedImage) (p : ℚ) (e e2 : JsThrown) (out m : String)
    (saveResult : Except JsThrown Unit) (now : ℕ)
    (store : List ExtractionRecord) (hp : p = 1 ∨ p = 2) :
    (passportExtractHandler nodeEnv (some img) (JsNumber.num p)
        (Except.error e) saveResult now store).response =
      { status := 500, error := some "Failed to process image",
        details := some (thrownDetails e) } ∧
    (passportExtractHandler nodeEnv (some img) (JsNumber.num p)
        (Except.ok out) (Except.error e2) now store).response =
      { status := 500, error := some "Failed to process image",
        details := some (thrownDetails e2) } ∧
    (aadhaarExtractHandler nodeEnv (some img) (JsNumber.num p)
        (Except.error e) saveResult now store).response =
      { status := 500, error := some "Failed to process image",
        details := some (thrownDetails e) } ∧
    (aadhaarExtractHandler nodeEnv (some img) (JsNumber.num p)
        (Except.ok out) (Except.error e2) now store).response =
      { status := 500, error := some "Failed to process image",
        details := some (thrownDetails e2) } ∧
    globalErrorHandler nodeEnv m =
      { status := 500, error := some "Internal Server Error",
        message := some (if nodeEnv = "development" then m
                         else "Something went wrong!") } := by
  have hp0 : p ≠ 0 := by rcases hp with h | h <;> rw [h] <;> norm_num
  have hinsPass : (getAgentInstructions "passport" p).isSome := by
    rcases hp with h | h <;> simp [getAgentInstructions, h]
  have hinsAad : (getAgentInstructions "aadhaar" p).isSome := by
    rcases hp with h | h <;> simp [getAgentInstructions, h]
  obtain ⟨insP, hinsP⟩ := Option.isSome_iff_exists.mp hinsPass
  obtain ⟨insA, hinsA⟩ := Option.isSome_iff_exists.mp hinsAad
  refine ⟨?_, ?_, ?_, ?_, rfl⟩ <;>
    simp [passportExtractHandler, aadhaarExtractHandler, jsNumberOrNull,
      hp0, hinsP, hinsA]

/-- Witness for the amended C5 at page 1 with a failing agent call and a
failing save. -/
theorem claim5_amended_witness :
    (passportExtractHandler "production"
        (some { base64Data := "b", mimetype := "image/png" })
        (JsNumber.num 1) (Except.error (JsThrown.jsError "boom"))
        (Except.ok ()) 0 []).response =
      { status := 500, error := some "Failed to process image",
        details := some (thrownDetails (JsThrown.jsError "boom")) } ∧
    (passportExtractHandler "production"
        (some { base64Data := "b", mimetype := "image/png" })
        (JsNumber.num 1) (Except.ok "o")
        (Except.error (JsThrown.jsError "db down")) 0 []).response =
      { status := 500, error := some "Failed to process image",
        details := some (thrownDetails (JsThrown.jsError "db down")) } ∧
    (aadhaarExtractHandler "production"
        (some { base64Data := "b", mimetype := "image/png" })
        (JsNumber.num 1) (Except.error (JsThrown.jsError "boom"))
        (Except.ok ()) 0 []).response =
      { status := 500, error := some "Failed to process image",
        details := some (thrownDetails (JsThrown.jsError "boom")) } ∧
    (aadhaarExtractHandler "production"
        (some { base64Data := "b", mimetype := "image/png" })
        (JsNumber.num 1) (Except.ok "o")
        (Except.error (JsThrown.jsError "db down")) 0 []).response =
      { status := 500, error := some "Failed to process image",
        details := some (thrownDetails (JsThrown.jsError "db down")) } ∧
    globalErrorHandler "production" "boom" =
      { status := 500, error := some "Internal Server Error",
        message := some (if "production" = "development" then "boom"
                         else "Something went wrong!") } :=
  claim5_amended_unconditional_details "production"
    { base64Data := "b", mimetype := "image/png" } 1
    (JsThrown.jsError "boom") (JsThrown.jsError "db down") "o" "boom"
    (Except.ok ()) 0 [] (Or.inl rfl)

/-- C6: an identifier matching no stored record makes the get-by-id endpoint
answer 404 "Data not found", never a 500 server error. -/
theorem claim6_unknown_id_is_404 (store : List ExtractionRecord) (id : ℕ)
    (h : ∀ r ∈ store, r.id ≠ id) :
    getExtractionHandler store id =
      { status := 404, error := some "Data not found" } ∧
    (getExtractionHandler store id).status ≠ 500 := by
  have hnone : findByIdModel store id = none := by
    unfold findByIdModel
    rw [List.find?_eq_none]
    intro x hx
    simp [h x hx]
  constructor
  · simp [getExtractionHandler, hnone]
  · simp [getExtractionHandler, hnone]

/-- Witness for C6: a one-record store probed with an absent identifier. -/
theorem claim6_witness :
    getExtractionHandler [⟨0, "passport", 1, "o", "u", 0⟩] 7 =
      { status := 404, error := some "Data not found" } ∧
    (getExtractionHandler [⟨0, "passport", 1, "o", "u", 0⟩] 7).status ≠ 500 :=
  claim6_unknown_id_is_404 [⟨0, "passport", 1, "o", "u", 0⟩] 7 (by decide)

/-- C8: the list endpoint's records are sorted newest first for every filter
combination; with no filters it returns exactly the stored records; every
returned set is exactly the stored records matching every supplied filter,
conjunctively when both are present. -/
theorem claim8_list_order_and_filters (store : List ExtractionRecord)
    (documentType : Option String) (pageNumber : Option JsNumber) :
    List.Sorted newestFirst
      (listExtractionsHandler store documentType pageNumber).data ∧
    List.Perm (listExtractionsHandler store none none).data store ∧
    List.Perm (listExtractionsHandler store documentType pageNumber).data
      (store.filter (matchesQuery documentType pageNumber)) ∧
    (∀ t : String, ∀ q : ℚ,
      List.Perm
        (listExtractionsHandler store (some t) (some (JsNumber.num q))).data
        (store.filter
          (fun r => r.documentType == t && r.pageNumber == q))) ∧
    (listExtractionsHandler store documentType pageNumber).count =
      (listExtractionsHandler store documentType pageNumber).data.length := by
  refine ⟨?_, ?_, ?_, ?_, rfl⟩
  · exact List.sorted_insertionSort newestFirst _
  · have hperm := List.perm_insertionSort newestFirst
      (store.filter (matchesQuery none none))
    have hfilter : store.filter (matchesQuery none none) = store := by
      simp [matchesQuery]
    simpa [listExtractionsHandler, hfilter] using hperm
  · exact List.perm_insertionSort newestFirst _
  · intro t q
    have hperm := List.perm_insertionSort newestFirst
      (store.filter (matchesQuery (some t) (some (JsNumber.num q))))
    simpa [listExtractionsHandler, matchesQuery] using hperm
